import Mathlib

/-!
Verification of the spot-optimizer central server backend
(src/Server-backend-2.py) against its natural-language specification.

The Python code is shallowly embedded: prices, percentiles and timestamps
become rationals, SQL tables become lists of row structures, JSON nullable
fields become Option, and Python exceptions (TypeError on None arithmetic,
ValueError on min of an empty list, ZeroDivisionError) become Except errors.
Human-readable reason strings keep their fixed text but drop the interpolated
numeric formatting, which no property depends on.
-/

namespace SpotServer

/-! ## Risk scorer (ModelManager.get_risk_score, lines 232-274) -/

/-- Per-pool percentile baselines from capacity_detector pool_context. -/
structure PoolStats where
  ratio_p50 : ℚ
  ratio_p92 : ℚ
deriving DecidableEq

/-- Global thresholds from capacity_detector config. -/
structure DetectorCfg where
  ratio_spike_threshold : ℚ
  ratio_absolute_high : ℚ
  ratio_safe_return : ℚ
deriving DecidableEq

/-- In-memory state of ModelManager: loaded flag, pool_context table and
the detector config. The pool_context dict becomes an association list. -/
structure ModelState where
  loaded : Bool
  pool_context : List (String × PoolStats)
  cfg : DetectorCfg

/-- Dict lookup pool_context.get(pool_id): first binding wins. -/
def lookupCtx (ctx : List (String × PoolStats)) (pool_id : String) : Option PoolStats :=
  (ctx.find? (fun p => p.1 == pool_id)).map (fun p => p.2)

deriving instance DecidableEq for Except

/-- Python arithmetic on a possibly-None value: None raises TypeError. -/
def expectNum : Option ℚ → Except String ℚ
  | none => .error "TypeError: unsupported operand type NoneType"
  | some q => .ok q

/-- The escalation-ordered branch cascade of get_risk_score (lines 244-274),
factored over the already-computed price ratio. Branch order follows the
source: absolute-high, then p92, then spike, then safe-return versus normal.
Reason strings elide the interpolated numbers. -/
def classifyRatio (cfg : DetectorCfg) (ctx : PoolStats) (price_ratio : ℚ) :
    ℚ × String × String :=
  if cfg.ratio_absolute_high < price_ratio then
    (9/10, "event", "Ratio exceeds absolute threshold")
  else if ctx.ratio_p92 < price_ratio then
    (4/5, "high-risk", "Ratio above p92")
  else if ctx.ratio_p50 * (1 + cfg.ratio_spike_threshold) < price_ratio then
    (3/5, "high-risk", "Ratio spike detected")
  else if price_ratio < cfg.ratio_safe_return then
    (1/5, "safe-to-return", "Ratio below safe threshold")
  else
    (3/10, "normal", "Normal conditions")

/-- ModelManager.get_risk_score. current_price arrives from the decision
engine and can be Python None; it is only used numerically when
ondemand_price is positive (the ratio division), where None would raise.
The unused current_discount parameter of the source is kept. -/
def get_risk_score (m : ModelState) (pool_id : String) (current_price : Option ℚ)
    (current_discount : ℚ) (ondemand_price : ℚ) : Except String (ℚ × String × String) :=
  if m.loaded = false then .ok (1/2, "normal", "Models not loaded")
  else
    match lookupCtx m.pool_context pool_id with
    | none => .ok (1/2, "normal", "Pool not in training data")
    | some ctx =>
        if 0 < ondemand_price then
          match current_price with
          | none => .error "TypeError: unsupported operand type NoneType"
          | some c => .ok (classifyRatio m.cfg ctx (c / ondemand_price))
        else .ok (classifyRatio m.cfg ctx 1)

/-- Numeric rank of a risk state, for the ordering
safe-to-return < normal < high-risk < event. -/
def stateRank : String → ℕ
  | "safe-to-return" => 0
  | "normal" => 1
  | "high-risk" => 2
  | "event" => 3
  | _ => 0

/-- Model state for the C4 scenario: loaded, one pool with
ratio_p50 = 0.5 and ratio_p92 = 0.9, absolute-high threshold 0.95
(spike threshold 0.3 and safe-return 0.4 are immaterial here). -/
def scenarioModel : ModelState :=
  { loaded := true
    pool_context := [("pool-a", { ratio_p50 := 1/2, ratio_p92 := 9/10 })]
    cfg := { ratio_spike_threshold := 3/10
             ratio_absolute_high := 19/20
             ratio_safe_return := 2/5 } }

/-- Claim C4, counterexample: with on_demand 1.00, spot 0.95, p50 0.5,
p92 0.9 and absolute-high 0.95, the scorer returns score 0.8 and state
high-risk, not score 0.9 and state event as the claim asserts: the
absolute-high comparison in the source is strict, and ratio 0.95 equals
the threshold, so the p92 branch fires instead. -/
theorem C4_counterexample :
    get_risk_score scenarioModel "pool-a" (some (19/20)) (1/20) 1 =
      .ok (4/5, "high-risk", "Ratio above p92")
    ∧ (4/5 : ℚ) ≠ 9/10 ∧ "high-risk" ≠ "event" := by
  refine ⟨?_, by norm_num, by decide⟩
  have hlook : lookupCtx [("pool-a", { ratio_p50 := 1/2, ratio_p92 := 9/10 })] "pool-a" =
      some { ratio_p50 := 1/2, ratio_p92 := 9/10 } := by rfl
  simp only [get_risk_score, scenarioModel, classifyRatio, hlook]
  norm_num

/-- Claim C4, amended: with on_demand 1.00, spot 0.95, ratio_p50 0.5,
ratio_p92 0.9 and absolute-high 0.95, the scorer computes ratio 0.95 and,
because the absolute-high test is strict and 0.95 is not greater than the
threshold while it is greater than p92 = 0.9, returns state high-risk with
score 0.8. -/
theorem C4_amended :
    (19/20 : ℚ) / 1 = 19/20
    ∧ get_risk_score scenarioModel "pool-a" (some (19/20)) (1/20) 1 =
        .ok (4/5, "high-risk", "Ratio above p92") := by
  constructor
  · norm_num
  · have hlook : lookupCtx [("pool-a", { ratio_p50 := 1/2, ratio_p92 := 9/10 })] "pool-a" =
        some { ratio_p50 := 1/2, ratio_p92 := 9/10 } := by rfl
    simp only [get_risk_score, scenarioModel, classifyRatio, hlook]
    norm_num

/-! ## Pricing snapshot and current-pool resolution (get_decision lines 673-684) -/

/-- One entry of the snapshot spot_pools list. The price is Option because
JSON may carry null; Python treats both None and 0 as falsy. -/
structure SpotPool where
  pool_id : String
  price : Option ℚ
deriving DecidableEq

/-- The pricing part of a decide request. -/
structure Pricing where
  on_demand_price : ℚ
  spot_pools : List SpotPool
deriving DecidableEq

/-- Python truthiness of the looked-up current price: None and 0 are falsy. -/
def pythonFalsy : Option ℚ → Bool
  | none => true
  | some q => q == 0

/-- Lines 676-684 of get_decision: scan the snapshot for the first pool whose
id equals the recorded current pool and take its price; if the result is
falsy (pool not listed, price null, or price 0) and the snapshot is
nonempty, rebind both the current price and the current pool id to the
FIRST pool of the snapshot list. -/
def resolveCurrentPool (pools : List SpotPool) (current_pool_id : String) :
    String × Option ℚ :=
  let current_spot_price : Option ℚ :=
    match pools.find? (fun p => p.pool_id == current_pool_id) with
    | some p => p.price
    | none => none
  match pools with
  | [] => (current_pool_id, current_spot_price)
  | p0 :: _ =>
      if pythonFalsy current_spot_price then (p0.pool_id, p0.price)
      else (current_pool_id, current_spot_price)

/-- Python min(spot_pools, key=price) as used at lines 707 and 718:
ValueError on an empty list; a single pool is returned without any
comparison; with two or more pools a None price raises TypeError when
compared; ties keep the earliest pool (strict less-than in the fold). -/
def minByPrice : List SpotPool → Except String SpotPool
  | [] => .error "ValueError: min() arg is an empty sequence"
  | [p] => .ok p
  | p :: q :: rest =>
      if (p :: q :: rest).any (fun r => r.price.isNone) then
        .error "TypeError: NoneType is not comparable"
      else
        .ok ((q :: rest).foldl
          (fun best r => if r.price.getD 0 < best.price.getD 0 then r else best) p)

/-- Snapshot for the C1 counterexample: pool A at price 2 listed before the
strictly cheaper pool B at price 1; the recorded pool C is not listed. -/
def c1Pools : List SpotPool := [⟨"pool-A", some 2⟩, ⟨"pool-B", some 1⟩]

/-- Claim C1, counterexample: with recorded pool C absent from the snapshot
listing A at 2 then B at 1, the engine resolves the current pool to A, the
first listed pool, while the pool of minimum price is B — so the fallback
is not to the cheapest listed pool as the claim states. -/
theorem C1_counterexample :
    resolveCurrentPool c1Pools "pool-C" = ("pool-A", some 2)
    ∧ minByPrice c1Pools = .ok ⟨"pool-B", some 1⟩
    ∧ ("pool-A" : String) ≠ "pool-B" := by
  refine ⟨by decide, ?_, by decide⟩
  decide

/-- Claim C1, amended: in the evaluating state, when the snapshot does not
list the recorded current pool, the engine falls back to the FIRST pool of
the snapshot list (not necessarily the cheapest) as the resolved current
pool and price. -/
theorem C1_fallback_first_listed (p0 : SpotPool) (rest : List SpotPool)
    (cpid : String)
    (h : (p0 :: rest).find? (fun p => p.pool_id == cpid) = none) :
    resolveCurrentPool (p0 :: rest) cpid = (p0.pool_id, p0.price) := by
  simp [resolveCurrentPool, h, pythonFalsy]

/-- Claim C1 witness: the amended fallback theorem applied to a concrete
snapshot that does not list the recorded pool. -/
theorem C1_witness :
    resolveCurrentPool c1Pools "pool-C" = ("pool-A", some 2) :=
  C1_fallback_first_listed ⟨"pool-A", some 2⟩ [⟨"pool-B", some 1⟩] "pool-C" (by decide)

/-- Claim C10: when the snapshot lists the current pool but its price is 0
or null, the truthiness test treats it like an absent pool and the engine
rebinds the current pool and price to the first pool of the snapshot list. -/
theorem C10_falsy_price_rebinds_to_first (p0 : SpotPool) (rest : List SpotPool)
    (cpid : String) (q : SpotPool)
    (hfind : (p0 :: rest).find? (fun p => p.pool_id == cpid) = some q)
    (hfalsy : pythonFalsy q.price = true) :
    resolveCurrentPool (p0 :: rest) cpid = (p0.pool_id, p0.price) := by
  simp [resolveCurrentPool, hfind, hfalsy]

/-- Claim C10 witness: recorded pool B is listed with price 0; the engine
rebinds to the first listed pool A with its price 2. -/
theorem C10_witness :
    resolveCurrentPool [⟨"pool-A", some 2⟩, ⟨"pool-B", some 0⟩] "pool-B" =
      ("pool-A", some 2) :=
  C10_falsy_price_rebinds_to_first ⟨"pool-A", some 2⟩ [⟨"pool-B", some 0⟩]
    "pool-B" ⟨"pool-B", some 0⟩ (by decide) (by decide)

/-- Claim C6: the risk classifier is monotone in the price ratio: under any
fixed thresholds, for ratios r1 < r2 the state returned for r2 is never
lower-risk than the state for r1, in the ordering
safe-to-return < normal < high-risk < event. -/
theorem C6_risk_state_monotone (cfg : DetectorCfg) (ctx : PoolStats)
    (r1 r2 : ℚ) (h : r1 < r2) :
    stateRank (classifyRatio cfg ctx r1).2.1 ≤ stateRank (classifyRatio cfg ctx r2).2.1 := by
  unfold classifyRatio
  split_ifs <;> simp [stateRank] <;> linarith

/-- Claim C6, witness: a concrete instantiation of the monotonicity theorem
at ratios 0.3 < 0.97 under the scenario thresholds. -/
theorem C6_witness :
    stateRank (classifyRatio scenarioModel.cfg { ratio_p50 := 1/2, ratio_p92 := 9/10 } (3/10)).2.1
      ≤ stateRank (classifyRatio scenarioModel.cfg { ratio_p50 := 1/2, ratio_p92 := 9/10 } (97/100)).2.1 :=
  C6_risk_state_monotone _ _ _ _ (by norm_num)

/-! ## Switch-event rows and the policy gates (get_decision lines 633-671) -/

/-- One row of the switch_events table, with the columns written by the
switch-report INSERT (lines 774-790). Timestamps are seconds. -/
structure SwitchEventRow where
  client_id : String
  instance_id : String
  agent_id : String
  trigger : String
  from_mode : String
  to_mode : String
  from_pool_id : Option String
  to_pool_id : Option String
  on_demand_price : ℚ
  old_spot_price : ℚ
  new_spot_price : ℚ
  savings_impact : ℚ
  snapshot_used : Bool
  snapshot_id : Option String
  old_instance_id : String
  new_instance_id : String
  timestamp : ℚ
deriving DecidableEq

/-- The trailing-7-days switch count of an agent (lines 633-637): rows with
this agent id and timestamp at least now minus 7 days (604800 seconds). -/
def recentSwitchCount (events : List SwitchEventRow) (agent_id : String) (now : ℚ) : ℕ :=
  (events.filter (fun e =>
    e.agent_id == agent_id && decide (now - 604800 ≤ e.timestamp))).length

/-- The rate gate (line 639): blocked when the recent count has reached the
weekly limit (greater-or-equal comparison). -/
def rateBlocked (events : List SwitchEventRow) (agent_id : String) (now : ℚ)
    (max_switches_per_week : ℕ) : Bool :=
  max_switches_per_week ≤ recentSwitchCount events agent_id now

/-- An event touches the instance when it is the source or the destination
(lines 652-657: instance_id = X OR new_instance_id = X). -/
def touchesInstance (iid : String) (e : SwitchEventRow) : Bool :=
  e.instance_id == iid || e.new_instance_id == iid

/-- MAX over a list of timestamps (ORDER BY timestamp DESC LIMIT 1). -/
def maxTimestamp : List ℚ → Option ℚ
  | [] => none
  | t :: ts =>
      match maxTimestamp ts with
      | none => some t
      | some u => some (max t u)

/-- Timestamp of the most recent switch event touching the instance. -/
def lastSwitchTouching (events : List SwitchEventRow) (iid : String) : Option ℚ :=
  maxTimestamp ((events.filter (touchesInstance iid)).map (fun e => e.timestamp))

/-- The dwell gate (lines 659-671): when a last switch exists, blocked
exactly when the elapsed hours are strictly below the minimum. -/
def dwellBlocked (events : List SwitchEventRow) (iid : String)
    (now min_pool_duration_hours : ℚ) : Bool :=
  match lastSwitchTouching events iid with
  | none => false
  | some ts => decide ((now - ts) / 3600 < min_pool_duration_hours)

theorem maxTimestamp_eq_none_iff (l : List ℚ) : maxTimestamp l = none ↔ l = [] := by
  cases l with
  | nil => simp [maxTimestamp]
  | cons a l =>
      simp only [maxTimestamp]
      cases maxTimestamp l <;> simp

theorem maxTimestamp_eq_some_iff (l : List ℚ) (t : ℚ) :
    maxTimestamp l = some t ↔ t ∈ l ∧ ∀ u ∈ l, u ≤ t := by
  induction l generalizing t with
  | nil => simp [maxTimestamp]
  | cons a l ih =>
      cases h : maxTimestamp l with
      | none =>
          have : l = [] := (maxTimestamp_eq_none_iff l).mp h
          subst this
          simp only [maxTimestamp]
          constructor
          · rintro ⟨rfl⟩
            simp
          · rintro ⟨ht, hb⟩
            simp only [List.mem_singleton] at ht
            subst ht
            rfl
      | some u =>
          obtain ⟨hu_mem, hu_bound⟩ := (ih u).mp h
          simp only [maxTimestamp, h, Option.some.injEq]
          constructor
          · rintro rfl
            constructor
            · rcases le_total a u with hau | hua
              · rw [max_eq_right hau]
                exact List.mem_cons_of_mem a hu_mem
              · rw [max_eq_left hua]
                exact List.mem_cons_self a l
            · intro v hv
              rcases List.mem_cons.mp hv with rfl | hvl
              · exact le_max_left _ _
              · exact le_trans (hu_bound v hvl) (le_max_right _ _)
          · rintro ⟨ht_mem, ht_bound⟩
            apply le_antisymm
            · exact max_le (ht_bound a (List.mem_cons_self a l))
                (ht_bound u (List.mem_cons_of_mem a hu_mem))
            · rcases List.mem_cons.mp ht_mem with rfl | htl
              · exact le_max_left _ _
              · exact le_trans (hu_bound t htl) (le_max_right _ _)

/-- Claim C7, amended: the dwell gate blocks exactly when the most recent
event whose instance_id or new_instance_id column equals the instance
(the WHERE clause at line 654) lies strictly less than
min_pool_duration_hours hours in the past; elapsed time equal to the
minimum is not blocked, since the comparison is strict. For rows written
by the switch-report INSERT both tested columns carry the destination id
(line 783), so an event where the instance is only the source never
blocks: see the counterexample. -/
theorem C7_dwell_gate_boundary (events : List SwitchEventRow) (iid : String)
    (now minDur : ℚ) :
    dwellBlocked events iid now minDur = true ↔
      ∃ e ∈ events, touchesInstance iid e = true
        ∧ (∀ e2 ∈ events, touchesInstance iid e2 = true → e2.timestamp ≤ e.timestamp)
        ∧ (now - e.timestamp) / 3600 < minDur := by
  unfold dwellBlocked lastSwitchTouching
  cases h : maxTimestamp ((events.filter (touchesInstance iid)).map (fun e => e.timestamp)) with
  | none =>
      have hnil := (maxTimestamp_eq_none_iff _).mp h
      simp only [List.map_eq_nil_iff, List.filter_eq_nil_iff] at hnil
      simp only [Bool.false_eq_true, false_iff]
      rintro ⟨e, he, htouch, -, -⟩
      exact absurd htouch (by simpa using hnil e he)
  | some ts =>
      obtain ⟨hts_mem, hts_bound⟩ := (maxTimestamp_eq_some_iff _ _).mp h
      simp only [List.mem_map, List.mem_filter] at hts_mem
      obtain ⟨e, ⟨he_mem, he_touch⟩, he_ts⟩ := hts_mem
      simp only [decide_eq_true_eq]
      constructor
      · intro hlt
        refine ⟨e, he_mem, he_touch, ?_, by rw [he_ts]; exact hlt⟩
        intro e2 he2 ht2
        have : e2.timestamp ∈ (events.filter (touchesInstance iid)).map
            (fun e => e.timestamp) := by
          simp only [List.mem_map, List.mem_filter]
          exact ⟨e2, ⟨he2, ht2⟩, rfl⟩
        exact he_ts ▸ hts_bound _ this
      · rintro ⟨e2, he2_mem, he2_touch, he2_max, he2_lt⟩
        have h1 : e2.timestamp ≤ ts := by
          apply hts_bound
          simp only [List.mem_map, List.mem_filter]
          exact ⟨e2, ⟨he2_mem, he2_touch⟩, rfl⟩
        have h2 : ts ≤ e2.timestamp := he_ts ▸ he2_max e he_mem he_touch
        have : ts = e2.timestamp := le_antisymm h2 h1
        rw [this]
        exact he2_lt

/-- A sample switch event for witnesses, touching instance i-b as the
destination and i-a as the source. -/
def sampleEvent (agent_id : String) (ts : ℚ) : SwitchEventRow :=
  { client_id := "client-1", instance_id := "i-b0000000", agent_id := agent_id
    trigger := "model", from_mode := "spot", to_mode := "spot"
    from_pool_id := some "pool-A", to_pool_id := some "pool-B"
    on_demand_price := 1, old_spot_price := 1, new_spot_price := 1
    savings_impact := 0, snapshot_used := true, snapshot_id := none
    old_instance_id := "i-a0000000", new_instance_id := "i-b0000000"
    timestamp := ts }

/-- Claim C7 witness: one event at time 1000000 touching i-b0000000; at
time 1003600 (one hour later) with a two-hour minimum the gate blocks. -/
theorem C7_witness :
    dwellBlocked [sampleEvent "agent-1" 1000000] "i-b0000000" 1003600 2 = true := by
  apply (C7_dwell_gate_boundary [sampleEvent "agent-1" 1000000] "i-b0000000" 1003600 2).mpr
  refine ⟨sampleEvent "agent-1" 1000000, List.mem_singleton.mpr rfl, by decide, ?_, ?_⟩
  · intro e2 he2 _
    rw [List.mem_singleton.mp he2]
  · show ((1003600 : ℚ) - 1000000) / 3600 < 2
    norm_num

/-- Claim C8: the rate gate blocks exactly when the trailing-7-day switch
count of the agent has reached max_switches_per_week; with exactly N such
events and limit N the decision is blocked, while with N minus 1 events it
is not blocked by this gate. -/
theorem C8_rate_gate_boundary (events : List SwitchEventRow) (agent_id : String)
    (now : ℚ) (N : ℕ) :
    (rateBlocked events agent_id now N = true ↔
        N ≤ recentSwitchCount events agent_id now)
    ∧ (recentSwitchCount events agent_id now = N →
        rateBlocked events agent_id now N = true)
    ∧ (0 < N → recentSwitchCount events agent_id now = N - 1 →
        rateBlocked events agent_id now N = false) := by
  unfold rateBlocked
  refine ⟨by simp, fun h => by simp [h], fun hN h => ?_⟩
  simp only [decide_eq_false_iff_not, not_le, h]
  omega

/-- Claim C8 witness: with two qualifying events and limit 2 the gate
blocks; with one qualifying event and limit 2 it does not. -/
theorem C8_witness :
    rateBlocked [sampleEvent "agent-1" 1000000, sampleEvent "agent-1" 1000001]
        "agent-1" 1000002 2 = true
    ∧ rateBlocked [sampleEvent "agent-1" 1000000] "agent-1" 1000002 2 = false := by
  have hin : ((1000002 : ℚ) - 604800 ≤ 1000000) := by norm_num
  have hin2 : ((1000002 : ℚ) - 604800 ≤ 1000001) := by norm_num
  constructor
  · apply (C8_rate_gate_boundary _ "agent-1" 1000002 2).2.1
    simp [recentSwitchCount, sampleEvent, List.filter, hin, hin2]
  · apply (C8_rate_gate_boundary _ "agent-1" 1000002 2).2.2 (by norm_num)
    simp [recentSwitchCount, sampleEvent, List.filter, hin]

/-! ## Command queue (mark_command_executed, lines 1106-1123) -/

/-- One row of pending_switch_commands. -/
structure CommandRow where
  id : ℕ
  agent_id : String
  instance_id : String
  target_mode : String
  target_pool_id : Option String
  created_at : ℚ
  executed_at : Option ℚ
deriving DecidableEq

/-- The acknowledgment UPDATE (lines 1113-1117): every row with the given
id and agent id gets executed_at set to NOW(), with no guard on whether
executed_at was already set. -/
def mark_command_executed (cmds : List CommandRow) (command_id : ℕ)
    (agent_id : String) (now : ℚ) : List CommandRow :=
  cmds.map (fun c =>
    if c.id = command_id ∧ c.agent_id = agent_id then
      { c with executed_at := some now }
    else c)

/-- A command already acknowledged at time 5. -/
def ackedCommand : CommandRow :=
  { id := 1, agent_id := "agent-1", instance_id := "i-b0000000"
    target_mode := "ondemand", target_pool_id := none
    created_at := 0, executed_at := some 5 }

/-- Claim C2, counterexample: re-acknowledging a command whose executed_at
is already set (time 5) at a later time 9 changes the stored row: the
UPDATE has no executed_at-is-null guard, so executed_at is overwritten
with the new time instead of staying at its first value. -/
theorem C2_counterexample :
    mark_command_executed [ackedCommand] 1 "agent-1" 9 =
      [{ ackedCommand with executed_at := some 9 }]
    ∧ mark_command_executed [ackedCommand] 1 "agent-1" 9 ≠ [ackedCommand] := by
  constructor
  · simp [mark_command_executed, ackedCommand]
  · intro h
    rw [show mark_command_executed [ackedCommand] 1 "agent-1" 9 =
        [{ ackedCommand with executed_at := some 9 }] from by
      simp [mark_command_executed, ackedCommand]] at h
    rw [List.cons.injEq] at h
    have h9 : ({ ackedCommand with executed_at := some 9 } : CommandRow).executed_at
        = ackedCommand.executed_at := by rw [h.1]
    norm_num [ackedCommand] at h9

/-- Claim C2, amended: re-acknowledging an already-executed command is not
an error, but it overwrites executed_at with the time of the later
acknowledgment (last write wins) instead of leaving it unchanged;
acknowledging twice at the same time is a no-op, and no acknowledgment
ever clears executed_at back to null. -/
theorem C2_reack_last_write_wins (cmds : List CommandRow) (command_id : ℕ)
    (agent_id : String) (t t2 : ℚ) :
    mark_command_executed (mark_command_executed cmds command_id agent_id t)
        command_id agent_id t2
      = mark_command_executed cmds command_id agent_id t2
    ∧ mark_command_executed (mark_command_executed cmds command_id agent_id t)
        command_id agent_id t
      = mark_command_executed cmds command_id agent_id t
    ∧ ∀ c ∈ mark_command_executed cmds command_id agent_id t,
        c.id = command_id → c.agent_id = agent_id → c.executed_at = some t := by
  refine ⟨?_, ?_, ?_⟩
  · unfold mark_command_executed
    rw [List.map_map]
    apply List.map_congr_left
    intro c _
    by_cases h : c.id = command_id ∧ c.agent_id = agent_id <;>
      simp [Function.comp, h]
  · unfold mark_command_executed
    rw [List.map_map]
    apply List.map_congr_left
    intro c _
    by_cases h : c.id = command_id ∧ c.agent_id = agent_id <;>
      simp [Function.comp, h]
  · intro c hc hid hag
    unfold mark_command_executed at hc
    obtain ⟨c0, _, hc0⟩ := List.mem_map.mp hc
    by_cases h : c0.id = command_id ∧ c0.agent_id = agent_id
    · rw [if_pos h] at hc0
      rw [← hc0]
    · rw [if_neg h] at hc0
      subst hc0
      exact absurd ⟨hid, hag⟩ h

/-- Claim C2 witness: the amended theorem applied to the concrete
already-acknowledged command, at re-acknowledgment times 9 and 5. -/
theorem C2_witness :
    mark_command_executed (mark_command_executed [ackedCommand] 1 "agent-1" 5)
        1 "agent-1" 5
      = mark_command_executed [ackedCommand] 1 "agent-1" 5 :=
  (C2_reack_last_write_wins [ackedCommand] 1 "agent-1" 5 5).2.1

/-! ## Switch ledger (switch_report, lines 759-833) -/

/-- One row of the instances table, with the columns the ledger touches. -/
structure InstanceRow where
  id : String
  client_id : String
  agent_id : String
  instance_type : String
  region : String
  az : String
  ami_id : String
  current_mode : Option String
  current_pool_id : Option String
  spot_price : Option ℚ
  is_active : Bool
  installed_at : Option ℚ
  last_switch_at : Option ℚ
  terminated_at : Option ℚ
  baseline_ondemand_price : Option ℚ
  ondemand_price : Option ℚ
deriving DecidableEq

/-- One row of the clients table (only the aggregate the ledger updates). -/
structure ClientRow where
  id : String
  total_savings : ℚ
deriving DecidableEq

/-- The persisted state the switch-report request mutates. -/
structure LedgerState where
  switch_events : List SwitchEventRow
  instances : List InstanceRow
  clients : List ClientRow
deriving DecidableEq

/-- The old_instance part of a switch report. -/
structure OldInst where
  instance_id : String
  mode : String
  pool_id : Option String
deriving DecidableEq

/-- The new_instance part of a switch report. -/
structure NewInst where
  instance_id : String
  mode : String
  pool_id : Option String
  instance_type : String
  region : String
  az : String
  ami_id : String
deriving DecidableEq

/-- The prices part of a switch report; new_spot may be absent. -/
structure SwitchPrices where
  on_demand : ℚ
  old_spot : ℚ
  new_spot : Option ℚ
deriving DecidableEq

/-- The timing part of a switch report. -/
structure SwitchTiming where
  traffic_switched_at : ℚ
  new_instance_ready_at : ℚ
  old_instance_terminated_at : Option ℚ
deriving DecidableEq

/-- A full switch report payload. -/
structure SwitchReport where
  old_instance : OldInst
  new_instance : NewInst
  trigger : String
  snapshot_used : Bool
  snapshot_id : Option String
  prices : SwitchPrices
  timing : SwitchTiming
deriving DecidableEq

/-- Line 772: savings_impact = old_spot - prices.get('new_spot', on_demand). -/
def savingsImpact (r : SwitchReport) : ℚ :=
  r.prices.old_spot - r.prices.new_spot.getD r.prices.on_demand

/-- The switch_events row built by the INSERT at lines 774-790. The
new_spot_price column uses prices.get('new_spot', 0). -/
def mkSwitchEventRow (client_id agent_id : String) (r : SwitchReport) : SwitchEventRow :=
  { client_id := client_id
    instance_id := r.new_instance.instance_id
    agent_id := agent_id
    trigger := r.trigger
    from_mode := r.old_instance.mode
    to_mode := r.new_instance.mode
    from_pool_id := r.old_instance.pool_id
    to_pool_id := r.new_instance.pool_id
    on_demand_price := r.prices.on_demand
    old_spot_price := r.prices.old_spot
    new_spot_price := r.prices.new_spot.getD 0
    savings_impact := savingsImpact r
    snapshot_used := r.snapshot_used
    snapshot_id := r.snapshot_id
    old_instance_id := r.old_instance.instance_id
    new_instance_id := r.new_instance.instance_id
    timestamp := r.timing.traffic_switched_at }

/-- Statement 1 (lines 774-790): append the switch event to the ledger. -/
def insertEventStep (client_id agent_id : String) (r : SwitchReport)
    (s : LedgerState) : LedgerState :=
  { s with switch_events := s.switch_events ++ [mkSwitchEventRow client_id agent_id r] }

/-- Row effect of the UPDATE at lines 792-796. -/
def deactivateRow (client_id : String) (r : SwitchReport) (i : InstanceRow) : InstanceRow :=
  if i.id = r.old_instance.instance_id ∧ i.client_id = client_id then
    { i with is_active := false
             terminated_at := r.timing.old_instance_terminated_at }
  else i

/-- Statement 2 (lines 792-796): mark the origin instance inactive. -/
def deactivateOldStep (client_id : String) (r : SwitchReport)
    (s : LedgerState) : LedgerState :=
  { s with instances := s.instances.map (deactivateRow client_id r) }

/-- The fresh row inserted by lines 798-816 when the destination id is new:
listed columns from the report, remaining columns NULL. -/
def freshInstanceRow (client_id agent_id : String) (r : SwitchReport) : InstanceRow :=
  { id := r.new_instance.instance_id
    client_id := client_id
    agent_id := agent_id
    instance_type := r.new_instance.instance_type
    region := r.new_instance.region
    az := r.new_instance.az
    ami_id := r.new_instance.ami_id
    current_mode := some r.new_instance.mode
    current_pool_id := r.new_instance.pool_id
    spot_price := some (r.prices.new_spot.getD 0)
    is_active := true
    installed_at := some r.timing.new_instance_ready_at
    last_switch_at := some r.timing.traffic_switched_at
    terminated_at := none
    baseline_ondemand_price := none
    ondemand_price := none }

/-- Row effect of the ON DUPLICATE KEY UPDATE branch (lines 804-809):
only mode, pool, price, active flag and last switch time are updated. -/
def upsertRow (r : SwitchReport) (i : InstanceRow) : InstanceRow :=
  if i.id = r.new_instance.instance_id then
    { i with current_mode := some r.new_instance.mode
             current_pool_id := r.new_instance.pool_id
             spot_price := some (r.prices.new_spot.getD 0)
             is_active := true
             last_switch_at := some r.timing.traffic_switched_at }
  else i

/-- List-level effect of statement 3 on the instances table: update the
row with the destination id when one exists, else insert the fresh row. -/
def upsertInstances (client_id agent_id : String) (r : SwitchReport)
    (l : List InstanceRow) : List InstanceRow :=
  if l.any (fun i => i.id == r.new_instance.instance_id) then l.map (upsertRow r)
  else l ++ [freshInstanceRow client_id agent_id r]

/-- Statement 3 (lines 798-816): upsert the destination instance, keyed on
the instance id. -/
def upsertNewStep (client_id agent_id : String) (r : SwitchReport)
    (s : LedgerState) : LedgerState :=
  { s with instances := upsertInstances client_id agent_id r s.instances }

/-- Statement 4 (lines 819-826): when savings_impact is positive, add
savings_impact * 24 to the client's running total. -/
def addSavingsStep (client_id : String) (r : SwitchReport)
    (s : LedgerState) : LedgerState :=
  if 0 < savingsImpact r then
    { s with clients := s.clients.map (fun c =>
        if c.id = client_id then
          { c with total_savings := c.total_savings + savingsImpact r * 24 }
        else c) }
  else s

/-- The switch-report request body (lines 759-833): the four mutating
statements in source order. -/
def switch_report (client_id agent_id : String) (r : SwitchReport)
    (s : LedgerState) : LedgerState :=
  addSavingsStep client_id r
    (upsertNewStep client_id agent_id r
      (deactivateOldStep client_id r
        (insertEventStep client_id agent_id r s)))

theorem deactivateRow_id (client_id : String) (r : SwitchReport) (i : InstanceRow) :
    (deactivateRow client_id r i).id = i.id := by
  unfold deactivateRow
  split <;> rfl

theorem upsertRow_id (r : SwitchReport) (i : InstanceRow) :
    (upsertRow r i).id = i.id := by
  unfold upsertRow
  split <;> rfl

theorem deactivateRow_idem (client_id : String) (r : SwitchReport) (i : InstanceRow) :
    deactivateRow client_id r (deactivateRow client_id r i) = deactivateRow client_id r i := by
  unfold deactivateRow
  by_cases h : i.id = r.old_instance.instance_id ∧ i.client_id = client_id <;> simp [h]

theorem upsertRow_idem (r : SwitchReport) (i : InstanceRow) :
    upsertRow r (upsertRow r i) = upsertRow r i := by
  unfold upsertRow
  by_cases h : i.id = r.new_instance.instance_id <;> simp [h]

theorem upsertRow_of_ne (r : SwitchReport) (i : InstanceRow)
    (h : i.id ≠ r.new_instance.instance_id) : upsertRow r i = i := by
  unfold upsertRow
  simp [h]

theorem deactivateRow_of_ne_old (client_id : String) (r : SwitchReport) (i : InstanceRow)
    (h : i.id ≠ r.old_instance.instance_id) : deactivateRow client_id r i = i := by
  unfold deactivateRow
  simp [h]

theorem upsertRow_fresh (client_id agent_id : String) (r : SwitchReport) :
    upsertRow r (freshInstanceRow client_id agent_id r) = freshInstanceRow client_id agent_id r := by
  simp [upsertRow, freshInstanceRow]

/-- Replaying the upsert after the deactivate converges on each row when the
origin and destination ids differ. -/
theorem uRow_dRow_cycle (client_id : String) (r : SwitchReport)
    (h : r.old_instance.instance_id ≠ r.new_instance.instance_id) (x : InstanceRow) :
    upsertRow r (deactivateRow client_id r (upsertRow r (deactivateRow client_id r x)))
      = upsertRow r (deactivateRow client_id r x) := by
  by_cases hjd : (deactivateRow client_id r x).id = r.new_instance.instance_id
  · have hK : (upsertRow r (deactivateRow client_id r x)).id ≠ r.old_instance.instance_id := by
      rw [upsertRow_id, hjd]
      exact Ne.symm h
    rw [deactivateRow_of_ne_old client_id r _ hK, upsertRow_idem]
  · rw [upsertRow_of_ne r _ hjd, deactivateRow_idem, upsertRow_of_ne r _ hjd]

theorem insertEventStep_instances (client_id agent_id : String) (r : SwitchReport)
    (s : LedgerState) : (insertEventStep client_id agent_id r s).instances = s.instances := rfl

theorem insertEventStep_events (client_id agent_id : String) (r : SwitchReport)
    (s : LedgerState) :
    (insertEventStep client_id agent_id r s).switch_events
      = s.switch_events ++ [mkSwitchEventRow client_id agent_id r] := rfl

theorem deactivateOldStep_instances (client_id : String) (r : SwitchReport)
    (s : LedgerState) :
    (deactivateOldStep client_id r s).instances
      = s.instances.map (deactivateRow client_id r) := rfl

theorem deactivateOldStep_events (client_id : String) (r : SwitchReport)
    (s : LedgerState) :
    (deactivateOldStep client_id r s).switch_events = s.switch_events := rfl

theorem upsertNewStep_instances (client_id agent_id : String) (r : SwitchReport)
    (s : LedgerState) :
    (upsertNewStep client_id agent_id r s).instances
      = upsertInstances client_id agent_id r s.instances := rfl

theorem upsertNewStep_events (client_id agent_id : String) (r : SwitchReport)
    (s : LedgerState) :
    (upsertNewStep client_id agent_id r s).switch_events = s.switch_events := rfl

theorem insertEventStep_clients (client_id agent_id : String) (r : SwitchReport)
    (s : LedgerState) : (insertEventStep client_id agent_id r s).clients = s.clients := rfl

theorem deactivateOldStep_clients (client_id : String) (r : SwitchReport)
    (s : LedgerState) : (deactivateOldStep client_id r s).clients = s.clients := rfl

theorem upsertNewStep_clients (client_id agent_id : String) (r : SwitchReport)
    (s : LedgerState) : (upsertNewStep client_id agent_id r s).clients = s.clients := rfl

theorem addSavingsStep_clients (client_id : String) (r : SwitchReport)
    (s : LedgerState) :
    (addSavingsStep client_id r s).clients
      = if 0 < savingsImpact r then
          s.clients.map (fun cl =>
            if cl.id = client_id then
              { cl with total_savings := cl.total_savings + savingsImpact r * 24 }
            else cl)
        else s.clients := by
  unfold addSavingsStep
  split <;> rename_i h <;> simp [h]

theorem addSavingsStep_instances (client_id : String) (r : SwitchReport)
    (s : LedgerState) : (addSavingsStep client_id r s).instances = s.instances := by
  unfold addSavingsStep
  split <;> rfl

theorem addSavingsStep_events (client_id : String) (r : SwitchReport)
    (s : LedgerState) : (addSavingsStep client_id r s).switch_events = s.switch_events := by
  unfold addSavingsStep
  split <;> rfl

theorem switch_report_instances (client_id agent_id : String) (r : SwitchReport)
    (s : LedgerState) :
    (switch_report client_id agent_id r s).instances
      = upsertInstances client_id agent_id r (s.instances.map (deactivateRow client_id r)) := by
  unfold switch_report
  rw [addSavingsStep_instances, upsertNewStep_instances, deactivateOldStep_instances,
    insertEventStep_instances]

theorem switch_report_events (client_id agent_id : String) (r : SwitchReport)
    (s : LedgerState) :
    (switch_report client_id agent_id r s).switch_events
      = s.switch_events ++ [mkSwitchEventRow client_id agent_id r] := by
  unfold switch_report
  rw [addSavingsStep_events, upsertNewStep_events, deactivateOldStep_events,
    insertEventStep_events]

theorem switch_report_clients (client_id agent_id : String) (r : SwitchReport)
    (s : LedgerState) :
    (switch_report client_id agent_id r s).clients
      = if 0 < savingsImpact r then
          s.clients.map (fun cl =>
            if cl.id = client_id then
              { cl with total_savings := cl.total_savings + savingsImpact r * 24 }
            else cl)
        else s.clients := by
  unfold switch_report
  rw [addSavingsStep_clients]
  simp only [upsertNewStep_clients, deactivateOldStep_clients, insertEventStep_clients]

/-- Replaying the full deactivate-then-upsert pass over the instances table
converges when the origin and destination ids differ. -/
theorem upsertInstances_cycle (client_id agent_id : String) (r : SwitchReport)
    (h : r.old_instance.instance_id ≠ r.new_instance.instance_id)
    (l : List InstanceRow) :
    upsertInstances client_id agent_id r
        ((upsertInstances client_id agent_id r (l.map (deactivateRow client_id r))).map
          (deactivateRow client_id r))
      = upsertInstances client_id agent_id r (l.map (deactivateRow client_id r)) := by
  set A := l.map (deactivateRow client_id r) with hAdef
  cases hA : A.any (fun i => i.id == r.new_instance.instance_id) with
  | true =>
      have e1 : upsertInstances client_id agent_id r A = A.map (upsertRow r) := by
        unfold upsertInstances
        rw [hA]
        simp
      have hA2 : (((A.map (upsertRow r)).map (deactivateRow client_id r)).any
          (fun i => i.id == r.new_instance.instance_id)) = true := by
        simpa [List.any_map, Function.comp, deactivateRow_id, upsertRow_id] using hA
      have e3 : upsertInstances client_id agent_id r
            ((A.map (upsertRow r)).map (deactivateRow client_id r))
          = ((A.map (upsertRow r)).map (deactivateRow client_id r)).map (upsertRow r) := by
        unfold upsertInstances
        rw [hA2]
        simp
      rw [e1, e3, hAdef]
      simp only [List.map_map]
      apply List.map_congr_left
      intro x _
      simpa [Function.comp] using uRow_dRow_cycle client_id r h x
  | false =>
      have hAmem : ∀ x ∈ A, x.id ≠ r.new_instance.instance_id := by
        intro x hx hxeq
        have := List.any_eq_false.mp hA x hx
        simp [hxeq] at this
      have e1 : upsertInstances client_id agent_id r A
          = A ++ [freshInstanceRow client_id agent_id r] := by
        unfold upsertInstances
        rw [hA]
        simp
      rw [e1]
      have e2 : (A ++ [freshInstanceRow client_id agent_id r]).map (deactivateRow client_id r)
          = A ++ [freshInstanceRow client_id agent_id r] := by
        rw [List.map_append]
        congr 1
        · rw [hAdef, List.map_map]
          apply List.map_congr_left
          intro x _
          simpa [Function.comp] using deactivateRow_idem client_id r x
        · simp only [List.map_cons, List.map_nil, List.cons.injEq, and_true]
          exact deactivateRow_of_ne_old client_id r _ (by
            show r.new_instance.instance_id ≠ r.old_instance.instance_id
            exact Ne.symm h)
      rw [e2]
      have hA3 : ((A ++ [freshInstanceRow client_id agent_id r]).any
          (fun i => i.id == r.new_instance.instance_id)) = true := by
        simp [List.any_append, freshInstanceRow]
      have e3 : upsertInstances client_id agent_id r
            (A ++ [freshInstanceRow client_id agent_id r])
          = (A ++ [freshInstanceRow client_id agent_id r]).map (upsertRow r) := by
        unfold upsertInstances
        rw [hA3]
        simp
      rw [e3, List.map_append]
      congr 1
      · have : A.map (upsertRow r) = A.map id :=
          List.map_congr_left (fun x hx => upsertRow_of_ne r x (hAmem x hx))
        simpa using this
      · simp only [List.map_cons, List.map_nil, List.cons.injEq, and_true]
        exact upsertRow_fresh client_id agent_id r

/-- A concrete switch report with distinct source and destination and a
positive savings impact (old spot 2, new spot 1). -/
def c3Report : SwitchReport :=
  { old_instance := { instance_id := "i-a0000000", mode := "spot", pool_id := some "pool-A" }
    new_instance := { instance_id := "i-b0000000", mode := "spot", pool_id := some "pool-B"
                      instance_type := "t3.micro", region := "ap-south-1"
                      az := "ap-south-1a", ami_id := "ami-000001" }
    trigger := "model", snapshot_used := true, snapshot_id := none
    prices := { on_demand := 3, old_spot := 2, new_spot := some 1 }
    timing := { traffic_switched_at := 1000, new_instance_ready_at := 900
                old_instance_terminated_at := some 1100 } }

/-- A concrete pre-request state: empty ledger, one client. -/
def c3State : LedgerState :=
  { switch_events := []
    instances := []
    clients := [{ id := "client-1", total_savings := 0 }] }

/-- Claim C3, counterexample: applying the identical switch report twice
does not leave the state identical to one application: the ledger INSERT
has no dedup key, so the second application appends a second, identical
switch_events row (one row after one call, two after two). -/
theorem C3_counterexample :
    switch_report "client-1" "agent-1" c3Report
        (switch_report "client-1" "agent-1" c3Report c3State)
      ≠ switch_report "client-1" "agent-1" c3Report c3State := by
  intro h
  have hlen := congrArg (fun s => s.switch_events.length) h
  simp only [switch_report_events, List.length_append, List.length_cons,
    List.length_nil] at hlen
  omega

/-- Claim C3, amended: recordSwitch is idempotent only on the Instance
table: for a report whose origin and destination ids differ, replaying the
identical event leaves the instances component unchanged, while the
switch-event ledger receives a second copy of the same row and, when the
savings impact is positive, the replay adds savings_impact times 24 to the
matching client rows once more (when it is not positive, the clients are
untouched). -/
theorem C3_instance_upsert_idempotent (client_id agent_id : String)
    (r : SwitchReport) (s : LedgerState)
    (h : r.old_instance.instance_id ≠ r.new_instance.instance_id) :
    (switch_report client_id agent_id r
        (switch_report client_id agent_id r s)).instances
      = (switch_report client_id agent_id r s).instances
    ∧ (switch_report client_id agent_id r
        (switch_report client_id agent_id r s)).switch_events
      = (switch_report client_id agent_id r s).switch_events
          ++ [mkSwitchEventRow client_id agent_id r]
    ∧ (switch_report client_id agent_id r
        (switch_report client_id agent_id r s)).clients
      = (if 0 < savingsImpact r then
          (switch_report client_id agent_id r s).clients.map (fun cl =>
            if cl.id = client_id then
              { cl with total_savings := cl.total_savings + savingsImpact r * 24 }
            else cl)
        else (switch_report client_id agent_id r s).clients) := by
  refine ⟨?_, ?_, ?_⟩
  · rw [switch_report_instances, switch_report_instances]
    exact upsertInstances_cycle client_id agent_id r h s.instances
  · rw [switch_report_events]
  · exact switch_report_clients client_id agent_id r _

/-- Claim C3 witness: the replay theorem applied to the concrete report and
state; the instances table converges. -/
theorem C3_witness :
    (switch_report "client-1" "agent-1" c3Report
        (switch_report "client-1" "agent-1" c3Report c3State)).instances
      = (switch_report "client-1" "agent-1" c3Report c3State).instances :=
  (C3_instance_upsert_idempotent "client-1" "agent-1" c3Report c3State (by decide)).1

/-- Claim C7, counterexample: the ledger INSERT at line 783 writes the
destination id into the instance_id column, so the row recording the
switch from i-a0000000 to i-b0000000 carries the origin only in
old_instance_id, a column the dwell query at line 654 never tests. A
decide call for the origin i-a0000000 at the moment of the switch
(elapsed 0 hours, minimum 24) is therefore not blocked, although the
event touches that instance as its source within the minimum dwell. -/
theorem C7_counterexample :
    (mkSwitchEventRow "client-1" "agent-1" c3Report).old_instance_id = "i-a0000000"
    ∧ (mkSwitchEventRow "client-1" "agent-1" c3Report).timestamp = 1000
    ∧ ((1000 : ℚ) - 1000) / 3600 < 24
    ∧ dwellBlocked [mkSwitchEventRow "client-1" "agent-1" c3Report]
        "i-a0000000" 1000 24 = false := by
  refine ⟨rfl, rfl, by norm_num, ?_⟩
  decide

/-! ## Per-statement atomicity of the switch-report request (C5) -/

/-- Execution of the switch-report request with an injected persistence
failure. execute_query (lines 129-163) runs every statement on its own
pooled connection with its own commit, and on error rolls back only that
statement; so a failure at statement k leaves statements 0..k-1 committed.
failMask k = true means the k-th mutating statement raises. Indices:
0 = ledger INSERT, 1 = origin UPDATE, 2 = destination upsert, 3 = savings
UPDATE (the savings statement only runs when savings_impact > 0). -/
def switchReportRun (client_id agent_id : String) (r : SwitchReport)
    (failMask : ℕ → Bool) (s : LedgerState) : Except String Unit × LedgerState :=
  if failMask 0 then (.error "PersistenceError", s)
  else
    let s1 := insertEventStep client_id agent_id r s
    if failMask 1 then (.error "PersistenceError", s1)
    else
      let s2 := deactivateOldStep client_id r s1
      if failMask 2 then (.error "PersistenceError", s2)
      else
        let s3 := upsertNewStep client_id agent_id r s2
        if 0 < savingsImpact r then
          if failMask 3 then (.error "PersistenceError", s3)
          else (.ok (), addSavingsStep client_id r s3)
        else (.ok (), s3)

/-- Claim C5, counterexample: a persistence failure on the second statement
of a switch report (the origin-instance UPDATE) leaves the request failed
but the ledger INSERT of the first statement already committed, so the
stored state does not equal the state before the request. -/
theorem C5_counterexample :
    (switchReportRun "client-1" "agent-1" c3Report (fun k => k == 1) c3State).1
      = .error "PersistenceError"
    ∧ (switchReportRun "client-1" "agent-1" c3Report (fun k => k == 1) c3State).2
      ≠ c3State := by
  refine ⟨rfl, ?_⟩
  intro h
  have e : (switchReportRun "client-1" "agent-1" c3Report (fun k => k == 1) c3State).2
      = insertEventStep "client-1" "agent-1" c3Report c3State := rfl
  rw [e] at h
  have hlen := congrArg (fun st => st.switch_events.length) h
  simp [insertEventStep, c3State] at hlen

/-- Claim C5, amended: persistence failures are atomic per statement, not
per request: a failure on the first statement leaves the stored state
exactly the pre-request state, a failure on a later statement keeps the
effects of the statements already committed (a failing origin UPDATE still
leaves the ledger INSERT committed), and a failure-free run performs
exactly the pure switch_report transition. -/
theorem C5_per_statement_atomicity (client_id agent_id : String)
    (r : SwitchReport) (s : LedgerState) :
    (switchReportRun client_id agent_id r (fun k => k == 0) s).2 = s
    ∧ (switchReportRun client_id agent_id r (fun k => k == 0) s).1
        = .error "PersistenceError"
    ∧ (switchReportRun client_id agent_id r (fun k => k == 1) s).2
        = insertEventStep client_id agent_id r s
    ∧ (switchReportRun client_id agent_id r (fun _ => false) s).2
        = switch_report client_id agent_id r s := by
  refine ⟨rfl, rfl, rfl, ?_⟩
  by_cases himp : 0 < savingsImpact r
  · simp [switchReportRun, switch_report, himp]
  · simp [switchReportRun, switch_report, himp, addSavingsStep]

/-! ## The decide endpoint (get_decision, lines 603-757) -/

/-- The instance part of a decide request. current_mode is always present
in agent requests (the gate paths at lines 625, 644 and 666 index it
directly); current_pool_id is read with .get and may be absent. -/
structure InstanceReq where
  instance_id : String
  current_mode : String
  current_pool_id : Option String
deriving DecidableEq

/-- The joined agent_configs row with the agents flags (lines 613-618). -/
structure AgentConfig where
  enabled : Bool
  auto_switch_enabled : Bool
  min_savings_percent : ℚ
  risk_threshold : ℚ
  max_switches_per_week : ℕ
  min_pool_duration_hours : ℚ
deriving DecidableEq

/-- The JSON body of a decide response. Display rounding of risk_score and
expected_savings_per_hour (lines 744, 748) is elided. -/
structure DecideResponse where
  instance_id : String
  risk_score : ℚ
  recommended_action : String
  recommended_mode : String
  recommended_pool_id : Option String
  expected_savings_per_hour : ℚ
  allowed : Bool
  reason : String
deriving DecidableEq

/-- One row of the risk_scores Decision-audit table (INSERT, lines 730-740). -/
structure AuditRow where
  client_id : String
  instance_id : String
  agent_id : String
  risk_score : ℚ
  recommended_action : String
  recommended_pool_id : String
  recommended_mode : String
  expected_savings_per_hour : ℚ
  allowed : Bool
  reason : String
deriving DecidableEq

/-- A gate short-circuit response (lines 620-671): stay, zero risk, not
allowed, echoing the current mode and recorded pool. -/
def gateResponse (inst : InstanceReq) (reason : String) : DecideResponse :=
  { instance_id := inst.instance_id
    risk_score := 0
    recommended_action := "stay"
    recommended_mode := inst.current_mode
    recommended_pool_id := inst.current_pool_id
    expected_savings_per_hour := 0
    allowed := false
    reason := reason }

/-- The evaluating state of get_decision (lines 673-751): resolve the
current pool and price from the snapshot, compute the discount, score the
risk, pick the action branch, and build the one audit row of the INSERT at
lines 730-740 together with the response. Python runtime errors (None
arithmetic, min over an empty pool list, division by a zero on-demand
price) surface as Except errors, all of them raised before the INSERT.
The branch tuple is (action, mode, pool id, expected savings, reason). -/
def evaluateDecision (client_id agent_id : String) (cfg : AgentConfig)
    (m : ModelState) (inst : InstanceReq) (pricing : Pricing) :
    Except String (DecideResponse × AuditRow) := do
  let cpid0 := inst.current_pool_id.getD "unknown"
  let rp := resolveCurrentPool pricing.spot_pools cpid0
  let od := pricing.on_demand_price
  let discount ←
    if 0 < od then do
      let c ← expectNum rp.2
      pure (1 - c / od)
    else pure (0 : ℚ)
  let rsr ← get_risk_score m rp.1 rp.2 discount od
  let res ←
    if (rsr.2.1 = "event" ∨ rsr.2.1 = "high-risk") ∧ cfg.risk_threshold ≤ rsr.1 then do
      let c ← expectNum rp.2
      pure ("fallback_ondemand", "ondemand", "n/a", -(od - c),
        "High risk detected, fallback to on-demand recommended")
    else if rsr.2.1 = "safe-to-return" ∧ inst.current_mode = "ondemand" then do
      let best ← minByPrice pricing.spot_pools
      let bp ← expectNum best.price
      if od = 0 then .error "ZeroDivisionError"
      else
        let savings_pct := (od - bp) / od * 100
        if cfg.min_savings_percent ≤ savings_pct then
          pure ("switch_pool", "spot", best.pool_id, od - bp,
            "Safe to return to spot")
        else pure ("stay", inst.current_mode, rp.1, 0, rsr.2.2)
    else if inst.current_mode = "spot" ∧ rsr.2.1 = "normal" then do
      let best ← minByPrice pricing.spot_pools
      if best.pool_id ≠ rp.1 then do
        let c ← expectNum rp.2
        let bp ← expectNum best.price
        if od = 0 then .error "ZeroDivisionError"
        else
          let savings := c - bp
          let savings_pct := savings / od * 100
          if cfg.min_savings_percent ≤ savings_pct then
            pure ("switch_pool", "spot", best.pool_id, savings,
              "Better pool available")
          else pure ("stay", inst.current_mode, rp.1, 0, rsr.2.2)
      else pure ("stay", inst.current_mode, rp.1, 0, rsr.2.2)
    else pure ("stay", inst.current_mode, rp.1, 0, rsr.2.2)
  pure
    ({ instance_id := inst.instance_id
       risk_score := rsr.1
       recommended_action := res.1
       recommended_mode := res.2.1
       recommended_pool_id := some res.2.2.1
       expected_savings_per_hour := res.2.2.2.1
       allowed := cfg.auto_switch_enabled
       reason := res.2.2.2.2 },
     { client_id := client_id
       instance_id := inst.instance_id
       agent_id := agent_id
       risk_score := rsr.1
       recommended_action := res.1
       recommended_pool_id := res.2.2.1
       recommended_mode := res.2.1
       expected_savings_per_hour := res.2.2.2.1
       allowed := cfg.auto_switch_enabled
       reason := res.2.2.2.2 })

/-- The result of a decide call: the JSON response together with the
Decision-audit rows written during the call. -/
structure DecideResult where
  response : DecideResponse
  audit : List AuditRow
deriving DecidableEq

/-- get_decision (lines 603-757): missing-config/disabled gate, rate gate,
dwell gate in source order, each returning without any INSERT; otherwise
the evaluating state, which writes exactly the one audit row. The
config_data argument stands for the fetched agent_configs JOIN row. -/
def get_decision (client_id agent_id : String) (config_data : Option AgentConfig)
    (events : List SwitchEventRow) (now : ℚ) (m : ModelState)
    (inst : InstanceReq) (pricing : Pricing) : Except String DecideResult :=
  match config_data with
  | none => .ok { response := gateResponse inst "Agent disabled", audit := [] }
  | some cfg =>
      if cfg.enabled = false then
        .ok { response := gateResponse inst "Agent disabled", audit := [] }
      else if rateBlocked events agent_id now cfg.max_switches_per_week then
        .ok { response := gateResponse inst "Switch limit reached", audit := [] }
      else if dwellBlocked events inst.instance_id now cfg.min_pool_duration_hours then
        .ok { response := gateResponse inst "Too soon to switch", audit := [] }
      else
        (evaluateDecision client_id agent_id cfg m inst pricing).map
          (fun pr => { response := pr.1, audit := [pr.2] })

/-- Whether a decide call is short-circuited by the disabled, rate or dwell
gate (including the missing-config case, which line 620 folds into the
disabled gate). -/
def gateRejected (config_data : Option AgentConfig) (events : List SwitchEventRow)
    (agent_id instance_id : String) (now : ℚ) : Bool :=
  match config_data with
  | none => true
  | some cfg =>
      !cfg.enabled
        || rateBlocked events agent_id now cfg.max_switches_per_week
        || dwellBlocked events instance_id now cfg.min_pool_duration_hours

/-- A price whose truthiness test is false is in particular present. -/
theorem falsy_false_isSome (csp : Option ℚ) (h : pythonFalsy csp = false) :
    csp.isSome = true := by
  cases csp with
  | none => simp [pythonFalsy] at h
  | some q => rfl

/-- On a nonempty snapshot with all prices present, the resolved current
price is present. -/
theorem resolveCurrentPool_isSome (p0 : SpotPool) (rest : List SpotPool)
    (cpid : String) (hsome : ∀ p ∈ p0 :: rest, p.price.isSome = true) :
    ((resolveCurrentPool (p0 :: rest) cpid).2).isSome = true := by
  simp only [resolveCurrentPool]
  split
  · exact hsome p0 (List.mem_cons_self p0 rest)
  · rename_i hfalsy
    exact falsy_false_isSome _ (Bool.eq_false_iff.mpr hfalsy)

/-- The Python min fold returns one of the list elements. -/
theorem foldlMinMem (l : List SpotPool) (p : SpotPool) :
    l.foldl (fun best r => if r.price.getD 0 < best.price.getD 0 then r else best) p
      ∈ p :: l := by
  induction l generalizing p with
  | nil => simp
  | cons a l ih =>
      simp only [List.foldl_cons]
      rcases List.mem_cons.mp (ih (if a.price.getD 0 < p.price.getD 0 then a else p)) with
        h | h
      · rw [h]
        split
        · exact List.mem_cons_of_mem p (List.mem_cons_self a l)
        · exact List.mem_cons_self p (a :: l)
      · exact List.mem_cons_of_mem p (List.mem_cons_of_mem a h)

/-- On a nonempty snapshot with all prices present, Python min succeeds and
returns a listed pool. -/
theorem minByPrice_ok (pools : List SpotPool) (hne : pools ≠ [])
    (hsome : ∀ p ∈ pools, p.price.isSome = true) :
    ∃ best, minByPrice pools = .ok best ∧ best ∈ pools := by
  match pools, hne with
  | [p], _ => exact ⟨p, rfl, List.mem_singleton.mpr rfl⟩
  | p :: q :: rest, _ =>
      have hany : ((p :: q :: rest).any (fun r => r.price.isNone)) = false := by
        rw [List.any_eq_false]
        intro x hx
        have hxs := hsome x hx
        cases hxp : x.price with
        | none => rw [hxp] at hxs; simp at hxs
        | some v => simp [hxp]
      refine ⟨(q :: rest).foldl
        (fun best r => if r.price.getD 0 < best.price.getD 0 then r else best) p, ?_, ?_⟩
      · simp only [minByPrice, hany]
        simp
      · exact foldlMinMem (q :: rest) p

/-- With the resolved price present, the risk scorer never raises. -/
theorem get_risk_score_ok (m : ModelState) (pid : String) (csp : Option ℚ)
    (d od : ℚ) (hsome : csp.isSome = true) :
    ∃ v, get_risk_score m pid csp d od = .ok v := by
  unfold get_risk_score
  by_cases hl : m.loaded = false
  · exact ⟨(1/2, "normal", "Models not loaded"), by simp [hl]⟩
  · cases hctx : lookupCtx m.pool_context pid with
    | none =>
        exact ⟨(1/2, "normal", "Pool not in training data"), by simp [hl, hctx]⟩
    | some ctx =>
        by_cases hod : 0 < od
        · obtain ⟨c, hc⟩ := Option.isSome_iff_exists.mp hsome
          subst hc
          exact ⟨classifyRatio m.cfg ctx (c / od), by simp [hl, hctx, hod]⟩
        · exact ⟨classifyRatio m.cfg ctx 1, by simp [hl, hctx, hod]⟩

theorem except_bind_ok_eq {α β : Type} (a : α) (f : α → Except String β) :
    (Except.ok a >>= f : Except String β) = f a := rfl

theorem except_pure_eq {α : Type} (a : α) :
    (pure a : Except String α) = Except.ok a := rfl

/-- On a gate-free call with a nonempty snapshot, all prices present and a
positive on-demand price, the evaluating state completes without raising. -/
theorem evaluateDecision_ok (client_id agent_id : String) (cfg : AgentConfig)
    (m : ModelState) (inst : InstanceReq) (pricing : Pricing)
    (hne : pricing.spot_pools ≠ [])
    (hsome : ∀ p ∈ pricing.spot_pools, p.price.isSome = true)
    (hod : 0 < pricing.on_demand_price) :
    ∃ pr, evaluateDecision client_id agent_id cfg m inst pricing = .ok pr := by
  obtain ⟨p0, rest, hps⟩ : ∃ p0 rest, pricing.spot_pools = p0 :: rest := by
    cases hcase : pricing.spot_pools with
    | nil => exact absurd hcase hne
    | cons a l => exact ⟨a, l, rfl⟩
  have hrp : ((resolveCurrentPool pricing.spot_pools
      (inst.current_pool_id.getD "unknown")).2).isSome = true := by
    rw [hps]
    refine resolveCurrentPool_isSome p0 rest _ ?_
    rw [← hps]
    exact hsome
  obtain ⟨c, hc⟩ := Option.isSome_iff_exists.mp hrp
  obtain ⟨best, hbest, hbmem⟩ := minByPrice_ok pricing.spot_pools hne hsome
  obtain ⟨bp, hbp⟩ := Option.isSome_iff_exists.mp (hsome best hbmem)
  obtain ⟨rs, hrs⟩ := get_risk_score_ok m
    (resolveCurrentPool pricing.spot_pools (inst.current_pool_id.getD "unknown")).1
    (some c) (1 - c / pricing.on_demand_price) pricing.on_demand_price rfl
  have hodne : pricing.on_demand_price ≠ 0 := ne_of_gt hod
  simp only [evaluateDecision, hc, hod, if_true, ite_true, expectNum,
    except_bind_ok_eq, except_pure_eq, hrs, hbest, hbp]
  by_cases h1 : (rs.2.1 = "event" ∨ rs.2.1 = "high-risk") ∧ cfg.risk_threshold ≤ rs.1
  · exact ⟨_, by simp [h1]; rfl⟩
  · by_cases h2 : rs.2.1 = "safe-to-return" ∧ inst.current_mode = "ondemand"
    · by_cases h4 : cfg.min_savings_percent ≤
          (pricing.on_demand_price - bp) / pricing.on_demand_price * 100
      · exact ⟨_, by simp [h1, h2, h4, hodne]; rfl⟩
      · exact ⟨_, by simp [h1, h2, h4, hodne]; rfl⟩
    · by_cases h3 : inst.current_mode = "spot" ∧ rs.2.1 = "normal"
      · by_cases h5 : best.pool_id ≠ (resolveCurrentPool pricing.spot_pools
            (inst.current_pool_id.getD "unknown")).1
        · by_cases h6 : cfg.min_savings_percent ≤
              (c - bp) / pricing.on_demand_price * 100
          · exact ⟨_, by simp [h1, h2, h3, h5, h6, hodne]; rfl⟩
          · exact ⟨_, by simp [h1, h2, h3, h5, h6, hodne]; rfl⟩
        · exact ⟨_, by simp [h1, h2, h3, h5]; rfl⟩
      · exact ⟨_, by simp [h1, h2, h3]; rfl⟩

/-- Claim C9: a decide call rejected by the disabled, rate or dwell gate
writes no Decision-audit row and returns action stay, risk_score 0 and
allowed false; a call that passes every gate and returns a decision writes
exactly one audit row regardless of the action computed, and on a
well-formed snapshot (nonempty pool list, prices present, positive
on-demand price) the evaluating state always returns a decision. -/
theorem C9_gate_rejections_unaudited (client_id agent_id : String)
    (config_data : Option AgentConfig) (events : List SwitchEventRow) (now : ℚ)
    (m : ModelState) (inst : InstanceReq) (pricing : Pricing) :
    (gateRejected config_data events agent_id inst.instance_id now = true →
      ∃ out, get_decision client_id agent_id config_data events now m inst pricing
          = .ok out
        ∧ out.audit = []
        ∧ out.response.recommended_action = "stay"
        ∧ out.response.risk_score = 0
        ∧ out.response.allowed = false)
    ∧ (gateRejected config_data events agent_id inst.instance_id now = false →
        (∀ out, get_decision client_id agent_id config_data events now m inst pricing
            = .ok out → out.audit.length = 1)
        ∧ (pricing.spot_pools ≠ [] →
            (∀ p ∈ pricing.spot_pools, p.price.isSome = true) →
            0 < pricing.on_demand_price →
            ∃ out, get_decision client_id agent_id config_data events now m inst
                pricing = .ok out)) := by
  cases config_data with
  | none =>
      refine ⟨fun _ => ⟨_, rfl, rfl, rfl, rfl, rfl⟩, fun hg => ?_⟩
      simp [gateRejected] at hg
  | some cfg =>
      constructor
      · intro hg
        by_cases he : cfg.enabled = false
        · refine ⟨{ response := gateResponse inst "Agent disabled", audit := [] },
            ?_, rfl, rfl, rfl, rfl⟩
          simp [get_decision, he]
        · by_cases hr : rateBlocked events agent_id now cfg.max_switches_per_week = true
          · refine ⟨{ response := gateResponse inst "Switch limit reached", audit := [] },
              ?_, rfl, rfl, rfl, rfl⟩
            simp [get_decision, he, hr]
          · by_cases hd : dwellBlocked events inst.instance_id now
                cfg.min_pool_duration_hours = true
            · refine ⟨{ response := gateResponse inst "Too soon to switch", audit := [] },
                ?_, rfl, rfl, rfl, rfl⟩
              simp [get_decision, he, hr, hd]
            · exfalso
              have he2 : cfg.enabled = true := by
                cases h : cfg.enabled
                · exact absurd h he
                · rfl
              have hr2 := Bool.eq_false_iff.mpr hr
              have hd2 := Bool.eq_false_iff.mpr hd
              simp [gateRejected, he2, hr2, hd2] at hg
      · intro hg
        have he2 : cfg.enabled = true := by
          cases h : cfg.enabled
          · simp [gateRejected, h] at hg
          · rfl
        have hr2 : rateBlocked events agent_id now cfg.max_switches_per_week = false := by
          cases h : rateBlocked events agent_id now cfg.max_switches_per_week
          · rfl
          · simp [gateRejected, he2, h] at hg
        have hd2 : dwellBlocked events inst.instance_id now
            cfg.min_pool_duration_hours = false := by
          cases h : dwellBlocked events inst.instance_id now cfg.min_pool_duration_hours
          · rfl
          · simp [gateRejected, he2, hr2, h] at hg
        have hgd : get_decision client_id agent_id (some cfg) events now m inst pricing
            = (evaluateDecision client_id agent_id cfg m inst pricing).map
                (fun pr => { response := pr.1, audit := [pr.2] }) := by
          simp [get_decision, he2, hr2, hd2]
        constructor
        · intro out hout
          rw [hgd] at hout
          cases hev : evaluateDecision client_id agent_id cfg m inst pricing with
          | error e =>
              rw [hev] at hout
              simp [Except.map] at hout
          | ok pr =>
              rw [hev] at hout
              simp only [Except.map] at hout
              injection hout with h
              subst h
              rfl
        · intro hne hsome hod
          obtain ⟨pr, hpr⟩ := evaluateDecision_ok client_id agent_id cfg m inst
            pricing hne hsome hod
          exact ⟨_, by rw [hgd, hpr]; rfl⟩

/-- A disabled configuration for the C9 witness. -/
def disabledCfg : AgentConfig :=
  { enabled := false, auto_switch_enabled := true, min_savings_percent := 20
    risk_threshold := 1, max_switches_per_week := 4, min_pool_duration_hours := 24 }

/-- The instance part of the C9 witness request. -/
def instReq0 : InstanceReq :=
  { instance_id := "i-c0000000", current_mode := "spot"
    current_pool_id := some "pool-A" }

/-- The pricing part of the C9 witness request. -/
def pricing0 : Pricing :=
  { on_demand_price := 3, spot_pools := [⟨"pool-A", some 1⟩] }

/-- Claim C9 witness: the audit-frame theorem applied to a concrete
disabled-agent call: the result is a stay response with no audit row. -/
theorem C9_witness :
    ∃ out, get_decision "client-1" "agent-1" (some disabledCfg) [] 0 scenarioModel
        instReq0 pricing0 = .ok out
      ∧ out.audit = []
      ∧ out.response.recommended_action = "stay"
      ∧ out.response.risk_score = 0
      ∧ out.response.allowed = false :=
  (C9_gate_rejections_unaudited "client-1" "agent-1" (some disabledCfg) [] 0
    scenarioModel instReq0 pricing0).1 (by decide)

end SpotServer
